import Mathlib

/-!
Shallow embedding of `src/pyannote/audio/applications/pyannote_audio.py`,
the command-line dispatcher `main()` of the pyannote-audio toolkit.

The dispatcher parses CLI arguments with docopt, selects one of five task
Applications, resolves a compute device, and runs the `train`, `validate`
and `apply` branches in sequence, each assembling keys into one mutable
`params` dict that is passed as keyword arguments to the lifecycle call.

The embedding models:
  * the docopt result as a structure `Args` (docopt returns strings for
    valued options; the `int(...)` / `float(...)` conversions applied by
    the source are represented by typing the fields `Int` / `Rat`, and a
    `Rat` stands in for a Python float — no float arithmetic occurs);
  * the external world (filesystem, torch.hub, cpu count, attributes of
    the constructed Application objects) as a structure `World`;
  * the observable behaviour of `main` as a trace of `Event`s together
    with a terminal `Outcome`.

One detail of the source matters for error handling: the module imports
`docopt`, `Path`, `multiprocessing`, `torch` and the five application
classes, but never imports `sys`.  The call `sys.exit(msg)` in the
`except` block of the pretrained-model fetch therefore raises
`NameError: name 'sys' is not defined`.  Because it is raised while the
hub exception is being handled, the `NameError` is chained over that
original exception; the uncaught chain makes the interpreter print both
tracebacks — the original exception's text included — to stderr and
exit with status 1.  The locally built diagnostic `msg` is never
delivered anywhere.  This is modelled by the outcome
`Outcome.nameErrorSys`, which records both the discarded message and
the chained original exception text, and by `Outcome.exitStatus` /
`Outcome.stderrMessages`, which give each outcome its process exit
status and the exception texts the traceback printer reports.
-/

/-- The compute device chosen from the `--gpu` flag
(`torch.device('cuda')` / `torch.device('cpu')`). -/
inductive Device where
  | cpu
  | cuda
deriving DecidableEq, Repr

/-- A Python value stored in the `params` dict.  `float` carries a `Rat`
standing in for a Python float; `path` is a `pathlib.Path` object (kept
distinct from `str`, as in Python). -/
inductive Value where
  | str (s : String)
  | int (i : Int)
  | float (q : Rat)
  | bool (b : Bool)
  | path (p : String)
  | device (d : Device)
deriving DecidableEq, Repr

/-- The `params` dict: an insertion-ordered association list with
overwrite-in-place on key collision, matching Python dict semantics. -/
abbrev Params := List (String × Value)

/-- `params[k] = v` : overwrite in place when the key exists, otherwise
append, as a Python dict does. -/
def Params.insert (ps : Params) (k : String) (v : Value) : Params :=
  if ps.any (fun kv => kv.1 = k) then
    List.map (fun kv => if kv.1 = k then (k, v) else kv) ps
  else ps ++ [(k, v)]

/-- Dict lookup. -/
def Params.get (ps : Params) (k : String) : Option Value :=
  Option.map Prod.snd (List.find? (fun kv => kv.1 = k) ps)

/-- The docopt result for one invocation.  Boolean fields are the command
and flag entries (`arg['sad']`, `arg['train']`, `arg['--gpu']`, ...);
`Option` fields are options without a docopt default (absent = `None`);
the remaining fields carry docopt defaults (`--from` 0, `--to` 100,
`--batch` 32, `--step` 0.25, `--every` 1, `--purity` 0.9,
`--precision` 0.8). -/
structure Args where
  sad : Bool
  scd : Bool
  ovl : Bool
  emb : Bool
  dom : Bool
  modeTrain : Bool
  modeValidate : Bool
  modeApply : Bool
  gpu : Bool
  evergreen : Bool
  diarization : Bool
  protocol : String
  rootArg : String
  trainDirArg : String
  validateDirArg : String
  subset : Option String
  pretrained : Option String
  durationOpt : Option Rat
  metricOpt : Option String
  parallel : Option Int
  fromEpoch : Int
  toEpoch : Int
  batch : Int
  everyEpoch : Int
  stepRatio : Rat
  purity : Rat
  precision : Rat
deriving DecidableEq, Repr

/-- One of the five Application classes selected by the task flag. -/
inductive TaskKind where
  | speechActivityDetection
  | speakerChangeDetection
  | overlapDetection
  | speakerEmbedding
  | domainClassification
deriving DecidableEq, Repr

/-- The `if arg['sad']: ... elif arg['dom']:` chain assigning
`Application`; `none` when no task flag is set (then the name
`Application` stays unbound and its first use raises `NameError`). -/
def Args.application (a : Args) : Option TaskKind :=
  if a.sad then some TaskKind.speechActivityDetection
  else if a.scd then some TaskKind.speakerChangeDetection
  else if a.ovl then some TaskKind.overlapDetection
  else if a.emb then some TaskKind.speakerEmbedding
  else if a.dom then some TaskKind.domainClassification
  else none

/-- `torch.device('cuda') if arg['--gpu'] else torch.device('cpu')`. -/
def Args.deviceOf (a : Args) : Device :=
  if a.gpu then Device.cuda else Device.cpu

/-- Attributes of a constructed Application relevant to the dispatcher:
`getattr(app.task_, 'duration', None)` and
`getattr(app.task_, 'metric', None)`. -/
structure AppProps where
  taskDuration : Option Value
  taskMetric : Option Value

/-- The external environment of one invocation. -/
structure World where
  /-- `Path(s).expanduser().resolve(strict=True)`: `none` when the path
  does not exist and the call raises. -/
  resolveStrict : String → Option String
  /-- `Path(s).exists()`. -/
  pathExists : String → Bool
  /-- `torch.hub.load('pyannote/pyannote-audio:v2', name, return_path=True)`:
  a local checkpoint path on success, the exception text on failure. -/
  hubFetch : String → Except String String
  /-- `multiprocessing.cpu_count()`. -/
  cpuCount : Nat
  /-- The Application built by `Application.from_train_dir` (validate mode). -/
  appAtTrainDir : AppProps
  /-- The Application built by `Application.from_validate_dir` (apply mode). -/
  appAtValidateDir : AppProps

/-- Observable actions of the dispatcher, in program order. -/
inductive Event where
  /-- `torch.Tensor([0]).to(params['device'])` — the early device probe. -/
  | probe (d : Device)
  /-- `Application(root_dir, training=True)`. -/
  | constructTrain (dir : String)
  /-- `Application.from_train_dir(train_dir, training=False)`. -/
  | constructFromTrainDir (dir : String)
  /-- `Application.from_validate_dir(validate_dir, training=False)`. -/
  | constructFromValidateDir (dir : String)
  /-- `app.train(protocol, **params)`. -/
  | callTrain (protocol : String) (ps : Params)
  /-- `app.validate(protocol, **params)`. -/
  | callValidate (protocol : String) (ps : Params)
  /-- `app.apply(protocol, **params)`. -/
  | callApply (protocol : String) (ps : Params)
deriving DecidableEq, Repr

/-- How the process ends. -/
inductive Outcome where
  /-- `main` returns normally (exit status 0). -/
  | ok
  /-- `FileNotFoundError` from `resolve(strict=True)` on the given CLI
  path argument; uncaught, terminates the process with a traceback. -/
  | fileNotFound (cliPath : String)
  /-- `raise ValueError(msg)`; uncaught, terminates the process. -/
  | valueError (msg : String)
  /-- `NameError: name 'Application' is not defined` (no task flag set). -/
  | nameErrorApplication
  /-- `NameError: name 'sys' is not defined`, raised at `sys.exit(msg)`
  because the module never imports `sys`.  `msg` is the diagnostic built
  in the `except` block just before the failing name lookup — it is
  never delivered anywhere.  `context` is the text of the original hub
  exception that was being handled: the `NameError` is chained over it,
  so the interpreter's traceback reports the original exception's text
  before the `NameError` and the process exits with status 1. -/
  | nameErrorSys (msg : String) (context : String)
deriving DecidableEq, Repr

/-- The process exit status of each outcome: 0 when `main` returns,
1 when it dies with an uncaught exception (CPython prints the traceback
to stderr and exits with status 1). -/
def Outcome.exitStatus : Outcome → Nat
  | Outcome.ok => 0
  | Outcome.fileNotFound _ => 1
  | Outcome.valueError _ => 1
  | Outcome.nameErrorApplication => 1
  | Outcome.nameErrorSys _ _ => 1

/-- The message of every exception CPython's traceback printer reports
to stderr for the outcome, in print order.  For an exception raised
while another was being handled — the `sys.exit` `NameError` — the
chained context exception is printed first ("During handling of the
above exception, another exception occurred:"), so the diagnostic
contains the original exception's text. -/
def Outcome.stderrMessages : Outcome → List String
  | Outcome.ok => []
  | Outcome.fileNotFound cliPath => [cliPath]
  | Outcome.valueError msg => [msg]
  | Outcome.nameErrorApplication => ["name \x27Application\x27 is not defined"]
  | Outcome.nameErrorSys _ context =>
      [context, "name \x27sys\x27 is not defined"]

/-- The diagnostic built in the `except` clause of the hub fetch.  The
f-string interpolates `warm_start` — which at that point still holds
`int(arg['--from'])`, since the `Path(pretrained).exists()` branch was
not taken — rather than the `pretrained` name, and then the exception
text `e`. -/
def hubFailureMsg (warmStart : Int) (e : String) : String :=
  "Could not load \"" ++ toString warmStart ++ "\" model from torch.hub." ++
  "The following exception was raised:\n\n" ++ e ++ "\n\n"

/-- `"Task has no 'duration' defined. Use '--duration' option to provide one."` -/
def durationMsg : String :=
  "Task has no \x27duration\x27 defined. Use \x27--duration\x27 option to provide one."

/-- `"Approach has no 'metric' defined. Use '--metric' option to provide one."` -/
def metricMsg : String :=
  "Approach has no \x27metric\x27 defined. Use \x27--metric\x27 option to provide one."

/-- The duration fallback chain used identically in the validate and
apply branches: explicit `--duration` converted by `float(...)`, else
`getattr(app.task_, 'duration', None)`, else `raise ValueError`. -/
def resolveDuration (explicit : Option Rat) (prop : Option Value) :
    Except String Value :=
  match explicit with
  | some q => Except.ok (Value.float q)
  | none =>
    match prop with
    | some v => Except.ok v
    | none => Except.error durationMsg

/-- The metric fallback chain of the validate branch (embedding task
only): explicit `--metric` used as-is, else
`getattr(app.task_, 'metric', None)`, else `raise ValueError`. -/
def resolveMetric (explicit : Option String) (prop : Option Value) :
    Except String Value :=
  match explicit with
  | some m => Except.ok (Value.str m)
  | none =>
    match prop with
    | some v => Except.ok v
    | none => Except.error metricMsg

/-- Result of one mode branch: the events it emitted, the `params` dict
after it ran, and `some o` when it terminated the process. -/
def BlockResult := List Event × Params × Option Outcome

/-- `params = {}` followed by `params['device'] = torch.device(...)`:
the dict as it stands when the mode branches are reached. -/
def initParams (a : Args) : Params :=
  Params.insert [] "device" (Value.device a.deviceOf)

/-- The `if arg['train']:` branch (source lines 284–317). -/
def trainBlock (a : Args) (w : World) (ps : Params) : BlockResult :=
  if a.modeTrain then
    match w.resolveStrict a.rootArg with
    | none => ([], ps, some (Outcome.fileNotFound a.rootArg))
    | some rootDir =>
      match a.application with
      | none => ([], ps, some Outcome.nameErrorApplication)
      | some _ =>
        let ps := ps.insert "subset"
          (Value.str (match a.subset with | none => "train" | some s => s))
        -- warm_start = int(arg['--from']), possibly replaced below
        match a.pretrained with
        | none =>
          let ps := ps.insert "warm_start" (Value.int a.fromEpoch)
          let ps := ps.insert "epochs" (Value.int a.toEpoch)
          ([Event.constructTrain rootDir, Event.callTrain a.protocol ps],
           ps, none)
        | some pre =>
          if w.pathExists pre then
            let ps := ps.insert "warm_start" (Value.path pre)
            let ps := ps.insert "epochs" (Value.int a.toEpoch)
            ([Event.constructTrain rootDir, Event.callTrain a.protocol ps],
             ps, none)
          else
            match w.hubFetch pre with
            | Except.error e =>
              ([Event.constructTrain rootDir], ps,
               some (Outcome.nameErrorSys (hubFailureMsg a.fromEpoch e) e))
            | Except.ok fetched =>
              let ps := ps.insert "warm_start" (Value.str fetched)
              let ps := ps.insert "epochs" (Value.int a.toEpoch)
              ([Event.constructTrain rootDir, Event.callTrain a.protocol ps],
               ps, none)
  else ([], ps, none)

/-- The `if arg['validate']:` branch (source lines 319–364). -/
def validateBlock (a : Args) (w : World) (ps : Params) : BlockResult :=
  if a.modeValidate then
    match w.resolveStrict a.trainDirArg with
    | none => ([], ps, some (Outcome.fileNotFound a.trainDirArg))
    | some trainDir =>
      match a.application with
      | none => ([], ps, some Outcome.nameErrorApplication)
      | some _ =>
        let ps := ps.insert "subset"
          (Value.str (match a.subset with | none => "development" | some s => s))
        let ps := ps.insert "start" (Value.int a.fromEpoch)
        let ps := ps.insert "end" (Value.int a.toEpoch)
        let ps := ps.insert "every" (Value.int a.everyEpoch)
        let ps := ps.insert "chronological" (Value.bool (!a.evergreen))
        let ps := ps.insert "batch_size" (Value.int a.batch)
        let nJobs : Int :=
          match a.parallel with
          | none => (w.cpuCount : Int)
          | some n => n
        let ps := ps.insert "n_jobs" (Value.int nJobs)
        let ps := ps.insert "purity" (Value.float a.purity)
        let ps := ps.insert "diarization" (Value.bool a.diarization)
        let ps := ps.insert "precision" (Value.float a.precision)
        match resolveDuration a.durationOpt w.appAtTrainDir.taskDuration with
        | Except.error m =>
          ([Event.constructFromTrainDir trainDir], ps,
           some (Outcome.valueError m))
        | Except.ok dv =>
          let ps := ps.insert "duration" dv
          let ps := ps.insert "step" (Value.float a.stepRatio)
          if a.emb then
            match resolveMetric a.metricOpt w.appAtTrainDir.taskMetric with
            | Except.error m =>
              ([Event.constructFromTrainDir trainDir], ps,
               some (Outcome.valueError m))
            | Except.ok mv =>
              let ps := ps.insert "metric" mv
              ([Event.constructFromTrainDir trainDir,
                Event.callValidate a.protocol ps], ps, none)
          else
            ([Event.constructFromTrainDir trainDir,
              Event.callValidate a.protocol ps], ps, none)
  else ([], ps, none)

/-- The `if arg['apply']:` branch (source lines 366–385). -/
def applyBlock (a : Args) (w : World) (ps : Params) : BlockResult :=
  if a.modeApply then
    match w.resolveStrict a.validateDirArg with
    | none => ([], ps, some (Outcome.fileNotFound a.validateDirArg))
    | some valDir =>
      match a.application with
      | none => ([], ps, some Outcome.nameErrorApplication)
      | some _ =>
        let ps := ps.insert "subset"
          (Value.str (match a.subset with | none => "test" | some s => s))
        let ps := ps.insert "batch_size" (Value.int a.batch)
        match resolveDuration a.durationOpt w.appAtValidateDir.taskDuration with
        | Except.error m =>
          ([Event.constructFromValidateDir valDir], ps,
           some (Outcome.valueError m))
        | Except.ok dv =>
          let ps := ps.insert "duration" dv
          let ps := ps.insert "step" (Value.float a.stepRatio)
          ([Event.constructFromValidateDir valDir,
            Event.callApply a.protocol ps], ps, none)
  else ([], ps, none)

/-- The dispatcher `main()` (named `dispatchMain` here because `main` is
reserved): device selection and probe, then the three mode branches in
sequence, threading the single `params` dict. -/
def dispatchMain (a : Args) (w : World) : List Event × Outcome :=
  match trainBlock a w (initParams a) with
  | (e1, _, some o) => (Event.probe a.deviceOf :: e1, o)
  | (e1, ps1, none) =>
    match validateBlock a w ps1 with
    | (e2, _, some o) => (Event.probe a.deviceOf :: (e1 ++ e2), o)
    | (e2, ps2, none) =>
      match applyBlock a w ps2 with
      | (e3, _, some o) => (Event.probe a.deviceOf :: (e1 ++ e2 ++ e3), o)
      | (e3, _, none) => (Event.probe a.deviceOf :: (e1 ++ e2 ++ e3), Outcome.ok)

/-! ### Helper definitions used by the theorems -/

/-- `'<d>' if subset is None else subset` with mode-specific default `d`. -/
def subsetDefault (a : Args) (d : String) : String :=
  match a.subset with
  | none => d
  | some s => s

/-- The warm-start value the train branch ends up passing, when the
branch reaches the `app.train` call: the literal `Path` when
`--pretrained` names an existing path, the fetched checkpoint path when
the hub fetch succeeds, `int(arg['--from'])` when `--pretrained` is
absent; `none` when the hub fetch fails (no call happens then). -/
def warmStartResolved (a : Args) (w : World) : Option Value :=
  match a.pretrained with
  | none => some (Value.int a.fromEpoch)
  | some pre =>
    if w.pathExists pre then some (Value.path pre)
    else
      match w.hubFetch pre with
      | Except.ok fetched => some (Value.str fetched)
      | Except.error _ => none

/-- `multiprocessing.cpu_count()` fallback for `--parallel`. -/
def nJobsResolved (a : Args) (w : World) : Int :=
  match a.parallel with
  | none => (w.cpuCount : Int)
  | some n => n

/-- The `params` dict at the `app.train` call, as a function of the dict
that entered the branch. -/
def trainCallParams (a : Args) (ps : Params) (wv : Value) : Params :=
  ((ps.insert "subset" (Value.str (subsetDefault a "train"))).insert
    "warm_start" wv).insert "epochs" (Value.int a.toEpoch)

/-- The `params` dict at the `app.validate` call before the
embedding-only `metric` key. -/
def validateCallParamsBase (a : Args) (w : World) (ps : Params) (dv : Value) :
    Params :=
  (((((((((((ps.insert "subset"
    (Value.str (subsetDefault a "development"))).insert
    "start" (Value.int a.fromEpoch)).insert
    "end" (Value.int a.toEpoch)).insert
    "every" (Value.int a.everyEpoch)).insert
    "chronological" (Value.bool (!a.evergreen))).insert
    "batch_size" (Value.int a.batch)).insert
    "n_jobs" (Value.int (nJobsResolved a w))).insert
    "purity" (Value.float a.purity)).insert
    "diarization" (Value.bool a.diarization)).insert
    "precision" (Value.float a.precision)).insert
    "duration" dv).insert
    "step" (Value.float a.stepRatio)

/-- The `params` dict at the `app.apply` call. -/
def applyCallParams (a : Args) (ps : Params) (dv : Value) : Params :=
  (((ps.insert "subset" (Value.str (subsetDefault a "test"))).insert
    "batch_size" (Value.int a.batch)).insert
    "duration" dv).insert
    "step" (Value.float a.stepRatio)

/-- Lifecycle calls among the events. -/
def Event.isLifecycleCall : Event → Bool
  | Event.callTrain _ _ => true
  | Event.callValidate _ _ => true
  | Event.callApply _ _ => true
  | _ => false

/-- Number of mode flags set (docopt guarantees exactly one). -/
def modeFlagCount (a : Args) : Nat :=
  (if a.modeTrain then 1 else 0) + (if a.modeValidate then 1 else 0) +
  (if a.modeApply then 1 else 0)

/-- Number of task flags set (docopt guarantees exactly one). -/
def taskFlagCount (a : Args) : Nat :=
  (if a.sad then 1 else 0) + (if a.scd then 1 else 0) +
  (if a.ovl then 1 else 0) + (if a.emb then 1 else 0) +
  (if a.dom then 1 else 0)

/-- The positional directory argument consumed by the (unique) active
mode: `<root>` for train, `<train>` for validate, `<validate>` for apply. -/
def Args.modeDirArg (a : Args) : String :=
  if a.modeTrain then a.rootArg
  else if a.modeValidate then a.trainDirArg
  else a.validateDirArg

/-- The Application whose `task_` attributes the (unique) active
validate/apply mode consults. -/
def modeAppProps (a : Args) (w : World) : AppProps :=
  if a.modeValidate then w.appAtTrainDir else w.appAtValidateDir

/-! ### Lemmas about `Params` -/

theorem Params.find?_overwrite_self (k : String) (v : Value) (ps : Params)
    (h : ps.any (fun kv => kv.1 = k) = true) :
    List.find? (fun kv => kv.1 = k)
      (List.map (fun kv => if kv.1 = k then (k, v) else kv) ps) =
      some (k, v) := by
  induction ps with
  | nil => simp at h
  | cons hd tl ih =>
    rw [List.map_cons]
    by_cases hk : hd.1 = k
    · rw [if_pos hk, List.find?_cons]
      simp
    · rw [if_neg hk, List.find?_cons]
      simp only [hk, decide_False]
      apply ih
      rcases List.any_eq_true.1 h with ⟨x, hx, hpx⟩
      rcases List.mem_cons.1 hx with rfl | hx
      · exact absurd (of_decide_eq_true hpx) hk
      · exact List.any_eq_true.2 ⟨x, hx, hpx⟩

theorem Params.find?_overwrite_ne (k k' : String) (v : Value) (ps : Params)
    (h : k' ≠ k) :
    List.find? (fun kv => kv.1 = k')
      (List.map (fun kv => if kv.1 = k then (k, v) else kv) ps) =
      List.find? (fun kv => kv.1 = k') ps := by
  induction ps with
  | nil => rfl
  | cons hd tl ih =>
    rw [List.map_cons]
    by_cases hk : hd.1 = k
    · rw [if_pos hk, List.find?_cons, List.find?_cons]
      simp [hk, Ne.symm h, ih]
    · rw [if_neg hk, List.find?_cons, List.find?_cons]
      by_cases hk' : hd.1 = k' <;> simp [hk', ih]

theorem Params.get_insert (ps : Params) (k k' : String) (v : Value) :
    (ps.insert k v).get k' = if k' = k then some v else ps.get k' := by
  rw [Params.insert]
  by_cases hany : ps.any (fun kv => kv.1 = k) = true
  · rw [if_pos hany, Params.get, Params.get]
    by_cases hk : k' = k
    · rw [if_pos hk, hk, Params.find?_overwrite_self k v ps hany]
      rfl
    · rw [Params.find?_overwrite_ne k k' v ps hk, if_neg hk]
  · rw [if_neg hany, Params.get, Params.get, List.find?_append]
    by_cases hk : k' = k
    · rw [if_pos hk, hk]
      have hnone : List.find? (fun kv => kv.1 = k) ps = none := by
        rw [List.find?_eq_none]
        intro x hx hpx
        exact hany (List.any_eq_true.2 ⟨x, hx, hpx⟩)
      rw [hnone]
      simp [List.find?]
    · have h1 : List.find? (fun kv => kv.1 = k') [(k, v)] = none := by
        rw [List.find?_cons_of_neg]
        · rfl
        · simp only [decide_eq_true_eq]
          exact fun hh => hk hh.symm
      rw [h1, if_neg hk]
      simp

/-! ### Structural lemmas about the mode branches -/

theorem trainBlock_off {a : Args} (w : World) (ps : Params)
    (h : a.modeTrain = false) : trainBlock a w ps = ([], ps, none) := by
  unfold trainBlock
  simp [h]

theorem validateBlock_off {a : Args} (w : World) (ps : Params)
    (h : a.modeValidate = false) : validateBlock a w ps = ([], ps, none) := by
  unfold validateBlock
  simp [h]

theorem applyBlock_off {a : Args} (w : World) (ps : Params)
    (h : a.modeApply = false) : applyBlock a w ps = ([], ps, none) := by
  unfold applyBlock
  simp [h]

theorem trainBlock_no_callValidate {a : Args} {w : World} {ps : Params}
    {p : String} {qs : Params} :
    Event.callValidate p qs ∉ (trainBlock a w ps).1 := by
  intro h
  unfold trainBlock at h
  repeat' split at h
  all_goals simp_all

theorem trainBlock_no_callApply {a : Args} {w : World} {ps : Params}
    {p : String} {qs : Params} :
    Event.callApply p qs ∉ (trainBlock a w ps).1 := by
  intro h
  unfold trainBlock at h
  repeat' split at h
  all_goals simp_all

theorem validateBlock_no_callTrain {a : Args} {w : World} {ps : Params}
    {p : String} {qs : Params} :
    Event.callTrain p qs ∉ (validateBlock a w ps).1 := by
  intro h
  unfold validateBlock at h
  repeat' split at h
  all_goals simp_all

theorem validateBlock_no_callApply {a : Args} {w : World} {ps : Params}
    {p : String} {qs : Params} :
    Event.callApply p qs ∉ (validateBlock a w ps).1 := by
  intro h
  unfold validateBlock at h
  repeat' split at h
  all_goals simp_all

theorem applyBlock_no_callTrain {a : Args} {w : World} {ps : Params}
    {p : String} {qs : Params} :
    Event.callTrain p qs ∉ (applyBlock a w ps).1 := by
  intro h
  unfold applyBlock at h
  repeat' split at h
  all_goals simp_all

theorem applyBlock_no_callValidate {a : Args} {w : World} {ps : Params}
    {p : String} {qs : Params} :
    Event.callValidate p qs ∉ (applyBlock a w ps).1 := by
  intro h
  unfold applyBlock at h
  repeat' split at h
  all_goals simp_all

theorem trainBlock_get_device (a : Args) (w : World) (ps : Params) :
    ((trainBlock a w ps).2.1).get "device" = ps.get "device" := by
  unfold trainBlock
  repeat' split
  all_goals simp [Params.get_insert]

theorem validateBlock_get_device (a : Args) (w : World) (ps : Params) :
    ((validateBlock a w ps).2.1).get "device" = ps.get "device" := by
  unfold validateBlock
  repeat' split
  all_goals simp [Params.get_insert]

theorem initParams_get_device (a : Args) :
    (initParams a).get "device" = some (Value.device a.deviceOf) := by
  simp [initParams, Params.get_insert]

theorem trainBlock_callTrain_mem {a : Args} {w : World} {ps : Params}
    {p : String} {qs : Params}
    (h : Event.callTrain p qs ∈ (trainBlock a w ps).1) :
    p = a.protocol ∧
      ∃ wv, warmStartResolved a w = some wv ∧ qs = trainCallParams a ps wv := by
  unfold trainBlock at h
  repeat' split at h
  all_goals simp_all [warmStartResolved, trainCallParams, subsetDefault]

theorem validateBlock_callValidate_mem {a : Args} {w : World} {ps : Params}
    {p : String} {qs : Params}
    (h : Event.callValidate p qs ∈ (validateBlock a w ps).1) :
    p = a.protocol ∧
      ∃ dv, resolveDuration a.durationOpt w.appAtTrainDir.taskDuration =
              Except.ok dv ∧
        ((a.emb = false ∧ qs = validateCallParamsBase a w ps dv) ∨
         (a.emb = true ∧ ∃ mv,
            resolveMetric a.metricOpt w.appAtTrainDir.taskMetric =
              Except.ok mv ∧
            qs = (validateCallParamsBase a w ps dv).insert "metric" mv)) := by
  unfold validateBlock at h
  repeat' split at h
  all_goals simp_all [validateCallParamsBase, subsetDefault, nJobsResolved]

theorem applyBlock_callApply_mem {a : Args} {w : World} {ps : Params}
    {p : String} {qs : Params}
    (h : Event.callApply p qs ∈ (applyBlock a w ps).1) :
    p = a.protocol ∧
      ∃ dv, resolveDuration a.durationOpt w.appAtValidateDir.taskDuration =
              Except.ok dv ∧
        qs = applyCallParams a ps dv := by
  unfold applyBlock at h
  repeat' split at h
  all_goals simp_all [applyCallParams, subsetDefault]

theorem mem_dispatchMain {a : Args} {w : World} {e : Event}
    (h : e ∈ (dispatchMain a w).1) :
    e = Event.probe a.deviceOf ∨
    e ∈ (trainBlock a w (initParams a)).1 ∨
    e ∈ (validateBlock a w (trainBlock a w (initParams a)).2.1).1 ∨
    e ∈ (applyBlock a w
          (validateBlock a w (trainBlock a w (initParams a)).2.1).2.1).1 := by
  unfold dispatchMain at h
  rcases h1 : trainBlock a w (initParams a) with ⟨e1, ps1, o1⟩
  rw [h1] at h
  try dsimp only at h ⊢
  rcases o1 with _ | o
  · try dsimp only at h
    rcases h2 : validateBlock a w ps1 with ⟨e2, ps2, o2⟩
    rw [h2] at h
    try dsimp only at h ⊢
    rcases o2 with _ | o
    · try dsimp only at h
      rcases h3 : applyBlock a w ps2 with ⟨e3, ps3, o3⟩
      rw [h3] at h
      try dsimp only at h ⊢
      rcases o3 with _ | o <;>
        · simp at h
          tauto
    · simp at h
      tauto
  · simp at h
    tauto

/-! ### Concrete invocations used as witnesses -/

/-- `pyannote-audio sad <mode> /exp P` with every option at its docopt
default (`--from` 0, `--to` 100, `--batch` 32, `--step` 0.25,
`--every` 1, `--purity` 0.9, `--precision` 0.8) and no mode flag set
yet. -/
def baseArgs : Args := {
  sad := true, scd := false, ovl := false, emb := false, dom := false,
  modeTrain := false, modeValidate := false, modeApply := false,
  gpu := false, evergreen := false, diarization := false,
  protocol := "P", rootArg := "/exp", trainDirArg := "/exp/train",
  validateDirArg := "/exp/validate",
  subset := none, pretrained := none, durationOpt := none,
  metricOpt := none, parallel := none,
  fromEpoch := 0, toEpoch := 100, batch := 32, everyEpoch := 1,
  stepRatio := 1/4, purity := 9/10, precision := 4/5 }

/-- An environment where every path exists and resolves to itself, the
hub is unreachable, the machine has 4 CPUs, and both reconstructed
Applications expose a 2-second task duration and a cosine metric. -/
def baseWorld : World := {
  resolveStrict := fun s => some s,
  pathExists := fun _ => false,
  hubFetch := fun _ => Except.error "hub down",
  cpuCount := 4,
  appAtTrainDir :=
    { taskDuration := some (Value.float 2),
      taskMetric := some (Value.str "cosine") },
  appAtValidateDir :=
    { taskDuration := some (Value.float 2), taskMetric := none } }

/-! ### Lookups in the assembled call params -/

theorem trainCallParams_get_subset (a : Args) (ps : Params) (wv : Value) :
    (trainCallParams a ps wv).get "subset" =
      some (Value.str (subsetDefault a "train")) := by
  simp [trainCallParams, Params.get_insert]

theorem trainCallParams_get_warm_start (a : Args) (ps : Params) (wv : Value) :
    (trainCallParams a ps wv).get "warm_start" = some wv := by
  simp [trainCallParams, Params.get_insert]

theorem trainCallParams_get_epochs (a : Args) (ps : Params) (wv : Value) :
    (trainCallParams a ps wv).get "epochs" = some (Value.int a.toEpoch) := by
  simp [trainCallParams, Params.get_insert]

theorem trainCallParams_get_device (a : Args) (ps : Params) (wv : Value) :
    (trainCallParams a ps wv).get "device" = ps.get "device" := by
  simp [trainCallParams, Params.get_insert]

theorem trainCallParams_get_metric (a : Args) (ps : Params) (wv : Value) :
    (trainCallParams a ps wv).get "metric" = ps.get "metric" := by
  simp [trainCallParams, Params.get_insert]

theorem validateBase_get_subset (a : Args) (w : World) (ps : Params)
    (dv : Value) :
    (validateCallParamsBase a w ps dv).get "subset" =
      some (Value.str (subsetDefault a "development")) := by
  simp [validateCallParamsBase, Params.get_insert]

theorem validateBase_get_duration (a : Args) (w : World) (ps : Params)
    (dv : Value) :
    (validateCallParamsBase a w ps dv).get "duration" = some dv := by
  simp [validateCallParamsBase, Params.get_insert]

theorem validateBase_get_n_jobs (a : Args) (w : World) (ps : Params)
    (dv : Value) :
    (validateCallParamsBase a w ps dv).get "n_jobs" =
      some (Value.int (nJobsResolved a w)) := by
  simp [validateCallParamsBase, Params.get_insert]

theorem validateBase_get_purity (a : Args) (w : World) (ps : Params)
    (dv : Value) :
    (validateCallParamsBase a w ps dv).get "purity" =
      some (Value.float a.purity) := by
  simp [validateCallParamsBase, Params.get_insert]

theorem validateBase_get_device (a : Args) (w : World) (ps : Params)
    (dv : Value) :
    (validateCallParamsBase a w ps dv).get "device" = ps.get "device" := by
  simp [validateCallParamsBase, Params.get_insert]

theorem validateBase_get_metric (a : Args) (w : World) (ps : Params)
    (dv : Value) :
    (validateCallParamsBase a w ps dv).get "metric" = ps.get "metric" := by
  simp [validateCallParamsBase, Params.get_insert]

theorem validateBase_get_warm_start (a : Args) (w : World) (ps : Params)
    (dv : Value) :
    (validateCallParamsBase a w ps dv).get "warm_start" =
      ps.get "warm_start" := by
  simp [validateCallParamsBase, Params.get_insert]

theorem applyCallParams_get_subset (a : Args) (ps : Params) (dv : Value) :
    (applyCallParams a ps dv).get "subset" =
      some (Value.str (subsetDefault a "test")) := by
  simp [applyCallParams, Params.get_insert]

theorem applyCallParams_get_duration (a : Args) (ps : Params) (dv : Value) :
    (applyCallParams a ps dv).get "duration" = some dv := by
  simp [applyCallParams, Params.get_insert]

theorem applyCallParams_get_device (a : Args) (ps : Params) (dv : Value) :
    (applyCallParams a ps dv).get "device" = ps.get "device" := by
  simp [applyCallParams, Params.get_insert]

theorem applyCallParams_get_metric (a : Args) (ps : Params) (dv : Value) :
    (applyCallParams a ps dv).get "metric" = ps.get "metric" := by
  simp [applyCallParams, Params.get_insert]

theorem applyCallParams_get_purity (a : Args) (ps : Params) (dv : Value) :
    (applyCallParams a ps dv).get "purity" = ps.get "purity" := by
  simp [applyCallParams, Params.get_insert]

theorem trainBlock_get_metric (a : Args) (w : World) (ps : Params) :
    ((trainBlock a w ps).2.1).get "metric" = ps.get "metric" := by
  unfold trainBlock
  repeat' split
  all_goals simp [Params.get_insert]

theorem initParams_get_metric (a : Args) :
    (initParams a).get "metric" = none := rfl

/-- The first observable action of every invocation is the device probe:
each branch of `main`'s outcome analysis starts the trace with it. -/
theorem dispatchMain_head (a : Args) (w : World) :
    (dispatchMain a w).1.head? = some (Event.probe a.deviceOf) := by
  unfold dispatchMain
  repeat' split
  all_goals rfl

/-- The params dict `app.train` receives in the plain
`sad train /exp P` invocation. -/
def trainDefaultPs : Params :=
  [("device", Value.device Device.cpu), ("subset", Value.str "train"),
   ("warm_start", Value.int 0), ("epochs", Value.int 100)]

/-- The params dict `app.validate` receives in the plain
`sad validate /exp/train P` invocation against `baseWorld`. -/
def validateDefaultPs : Params :=
  [("device", Value.device Device.cpu), ("subset", Value.str "development"),
   ("start", Value.int 0), ("end", Value.int 100), ("every", Value.int 1),
   ("chronological", Value.bool true), ("batch_size", Value.int 32),
   ("n_jobs", Value.int 4), ("purity", Value.float (9/10)),
   ("diarization", Value.bool false), ("precision", Value.float (4/5)),
   ("duration", Value.float 2), ("step", Value.float (1/4))]

/-- The params dict `app.apply` receives in the plain
`sad apply /exp/validate P` invocation against `baseWorld`. -/
def applyDefaultPs : Params :=
  [("device", Value.device Device.cpu), ("subset", Value.str "test"),
   ("batch_size", Value.int 32), ("duration", Value.float 2),
   ("step", Value.float (1/4))]

set_option maxHeartbeats 1000000 in
theorem dispatch_trainOnly_eq :
    dispatchMain { baseArgs with modeTrain := true } baseWorld =
    ([Event.probe Device.cpu, Event.constructTrain "/exp",
      Event.callTrain "P" trainDefaultPs], Outcome.ok) := by rfl

set_option maxHeartbeats 1000000 in
theorem dispatch_validateOnly_eq :
    dispatchMain { baseArgs with modeValidate := true } baseWorld =
    ([Event.probe Device.cpu, Event.constructFromTrainDir "/exp/train",
      Event.callValidate "P" validateDefaultPs], Outcome.ok) := by rfl

set_option maxHeartbeats 1000000 in
theorem dispatch_applyOnly_eq :
    dispatchMain { baseArgs with modeApply := true } baseWorld =
    ([Event.probe Device.cpu, Event.constructFromValidateDir "/exp/validate",
      Event.callApply "P" applyDefaultPs], Outcome.ok) := by rfl

/-! ### The claims -/

/-- C7: for every invocation the compute device is the CUDA device
exactly when `--gpu` is present and the CPU device otherwise, and the
first observable action of `main` — before any path resolution,
Application construction or lifecycle call — is the trivial probe
allocation on that device. -/
theorem C7_device_selection_and_early_probe (a : Args) (w : World) :
    (dispatchMain a w).1.head? = some (Event.probe a.deviceOf) ∧
    (a.deviceOf = Device.cuda ↔ a.gpu = true) ∧
    (a.deviceOf = Device.cpu ↔ a.gpu = false) := by
  refine ⟨dispatchMain_head a w, ?_, ?_⟩
  · cases hg : a.gpu <;> simp [Args.deviceOf, hg]
  · cases hg : a.gpu <;> simp [Args.deviceOf, hg]

/-- C10: the device selected at startup is stored in the shared `params`
dict and is therefore passed as a keyword argument to every lifecycle
call — `train`, `validate` and `apply` alike. -/
theorem C10_device_forwarded_to_every_call (a : Args) (w : World)
    (p : String) (qs : Params)
    (h : Event.callTrain p qs ∈ (dispatchMain a w).1 ∨
         Event.callValidate p qs ∈ (dispatchMain a w).1 ∨
         Event.callApply p qs ∈ (dispatchMain a w).1) :
    qs.get "device" = some (Value.device a.deviceOf) := by
  rcases h with h | h | h
  · rcases mem_dispatchMain h with h | h | h | h
    · simp at h
    · obtain ⟨-, wv, -, hqs⟩ := trainBlock_callTrain_mem h
      clear h
      rw [hqs, trainCallParams_get_device, initParams_get_device]
    · exact absurd h validateBlock_no_callTrain
    · exact absurd h applyBlock_no_callTrain
  · rcases mem_dispatchMain h with h | h | h | h
    · simp at h
    · exact absurd h trainBlock_no_callValidate
    · obtain ⟨-, dv, -, hcase⟩ := validateBlock_callValidate_mem h
      clear h
      rcases hcase with ⟨-, hqs⟩ | ⟨-, mv, -, hqs⟩
      · rw [hqs, validateBase_get_device, trainBlock_get_device,
          initParams_get_device]
      · rw [hqs, Params.get_insert]
        simp [validateBase_get_device, trainBlock_get_device,
          initParams_get_device]
    · exact absurd h applyBlock_no_callValidate
  · rcases mem_dispatchMain h with h | h | h | h
    · simp at h
    · exact absurd h trainBlock_no_callApply
    · exact absurd h validateBlock_no_callApply
    · obtain ⟨-, dv, -, hqs⟩ := applyBlock_callApply_mem h
      clear h
      rw [hqs, applyCallParams_get_device, validateBlock_get_device,
        trainBlock_get_device, initParams_get_device]

/-- Witness for C10 at the concrete invocation `sad train /exp P`. -/
theorem C10_witness :
    Event.callTrain "P" trainDefaultPs ∈
      (dispatchMain { baseArgs with modeTrain := true } baseWorld).1 ∧
    trainDefaultPs.get "device" = some (Value.device Device.cpu) := by
  have hmem : Event.callTrain "P" trainDefaultPs ∈
      (dispatchMain { baseArgs with modeTrain := true } baseWorld).1 := by
    rw [dispatch_trainOnly_eq]
    simp
  refine ⟨hmem, ?_⟩
  have := C10_device_forwarded_to_every_call
    { baseArgs with modeTrain := true } baseWorld "P" trainDefaultPs
    (Or.inl hmem)
  simpa using this

/-- Any `app.train` call in the trace was issued by the train branch on
the freshly initialised params dict. -/
theorem dispatch_callTrain {a : Args} {w : World} {p : String} {qs : Params}
    (h : Event.callTrain p qs ∈ (dispatchMain a w).1) :
    p = a.protocol ∧
      ∃ wv, warmStartResolved a w = some wv ∧
        qs = trainCallParams a (initParams a) wv := by
  rcases mem_dispatchMain h with h | h | h | h
  · simp at h
  · exact trainBlock_callTrain_mem h
  · exact absurd h validateBlock_no_callTrain
  · exact absurd h applyBlock_no_callTrain

/-- Any `app.validate` call in the trace was issued by the validate
branch on the params dict left behind by the train branch. -/
theorem dispatch_callValidate {a : Args} {w : World} {p : String}
    {qs : Params}
    (h : Event.callValidate p qs ∈ (dispatchMain a w).1) :
    p = a.protocol ∧
      ∃ dv, resolveDuration a.durationOpt w.appAtTrainDir.taskDuration =
              Except.ok dv ∧
        ((a.emb = false ∧
            qs = validateCallParamsBase a w
                   (trainBlock a w (initParams a)).2.1 dv) ∨
         (a.emb = true ∧ ∃ mv,
            resolveMetric a.metricOpt w.appAtTrainDir.taskMetric =
              Except.ok mv ∧
            qs = (validateCallParamsBase a w
                    (trainBlock a w (initParams a)).2.1 dv).insert
                   "metric" mv)) := by
  rcases mem_dispatchMain h with h | h | h | h
  · simp at h
  · exact absurd h trainBlock_no_callValidate
  · exact validateBlock_callValidate_mem h
  · exact absurd h applyBlock_no_callValidate

/-- Any `app.apply` call in the trace was issued by the apply branch on
the params dict left behind by the validate branch. -/
theorem dispatch_callApply {a : Args} {w : World} {p : String} {qs : Params}
    (h : Event.callApply p qs ∈ (dispatchMain a w).1) :
    p = a.protocol ∧
      ∃ dv, resolveDuration a.durationOpt w.appAtValidateDir.taskDuration =
              Except.ok dv ∧
        qs = applyCallParams a
               (validateBlock a w (trainBlock a w (initParams a)).2.1).2.1
               dv := by
  rcases mem_dispatchMain h with h | h | h | h
  · simp at h
  · exact absurd h trainBlock_no_callApply
  · exact absurd h validateBlock_no_callApply
  · exact applyBlock_callApply_mem h

/-- C3: with `--subset` absent, the `subset` keyword passed to the
lifecycle call is "train" in train mode, "development" in validate mode
and "test" in apply mode; with `--subset` given, the given value is
passed in every mode. -/
theorem C3_subset_resolution (a : Args) (w : World) :
    (a.subset = none →
      (∀ p qs, Event.callTrain p qs ∈ (dispatchMain a w).1 →
        qs.get "subset" = some (Value.str "train")) ∧
      (∀ p qs, Event.callValidate p qs ∈ (dispatchMain a w).1 →
        qs.get "subset" = some (Value.str "development")) ∧
      (∀ p qs, Event.callApply p qs ∈ (dispatchMain a w).1 →
        qs.get "subset" = some (Value.str "test"))) ∧
    (∀ s, a.subset = some s →
      ∀ p qs,
        (Event.callTrain p qs ∈ (dispatchMain a w).1 ∨
         Event.callValidate p qs ∈ (dispatchMain a w).1 ∨
         Event.callApply p qs ∈ (dispatchMain a w).1) →
        qs.get "subset" = some (Value.str s)) := by
  have htr : ∀ p qs, Event.callTrain p qs ∈ (dispatchMain a w).1 →
      qs.get "subset" = some (Value.str (subsetDefault a "train")) := by
    intro p qs h
    obtain ⟨-, wv, -, hqs⟩ := dispatch_callTrain h
    rw [hqs, trainCallParams_get_subset]
  have hva : ∀ p qs, Event.callValidate p qs ∈ (dispatchMain a w).1 →
      qs.get "subset" = some (Value.str (subsetDefault a "development")) := by
    intro p qs h
    obtain ⟨-, dv, -, hcase⟩ := dispatch_callValidate h
    rcases hcase with ⟨-, hqs⟩ | ⟨-, mv, -, hqs⟩
    · rw [hqs, validateBase_get_subset]
    · rw [hqs, Params.get_insert]
      simp [validateBase_get_subset]
  have hap : ∀ p qs, Event.callApply p qs ∈ (dispatchMain a w).1 →
      qs.get "subset" = some (Value.str (subsetDefault a "test")) := by
    intro p qs h
    obtain ⟨-, dv, -, hqs⟩ := dispatch_callApply h
    rw [hqs, applyCallParams_get_subset]
  constructor
  · intro hs
    refine ⟨fun p qs h => ?_, fun p qs h => ?_, fun p qs h => ?_⟩
    · rw [htr p qs h]; simp [subsetDefault, hs]
    · rw [hva p qs h]; simp [subsetDefault, hs]
    · rw [hap p qs h]; simp [subsetDefault, hs]
  · intro s hs p qs h
    rcases h with h | h | h
    · rw [htr p qs h]; simp [subsetDefault, hs]
    · rw [hva p qs h]; simp [subsetDefault, hs]
    · rw [hap p qs h]; simp [subsetDefault, hs]

/-- Witness for C3 at `sad train /exp P` (no `--subset`). -/
theorem C3_witness :
    ({ baseArgs with modeTrain := true } : Args).subset = none ∧
    trainDefaultPs.get "subset" = some (Value.str "train") :=
  ⟨rfl,
   ((C3_subset_resolution { baseArgs with modeTrain := true } baseWorld).1
      rfl).1 "P" trainDefaultPs (by rw [dispatch_trainOnly_eq]; simp)⟩

/-- C4: in train mode, a `--pretrained` value naming an existing path
becomes the warm-start value verbatim (as a `Path`), overriding `--from`;
with `--pretrained` absent the warm start is `int(arg['--from'])`. -/
theorem C4_warm_start_resolution (a : Args) (w : World) :
    (∀ pre, a.pretrained = some pre → w.pathExists pre = true →
      ∀ p qs, Event.callTrain p qs ∈ (dispatchMain a w).1 →
        qs.get "warm_start" = some (Value.path pre)) ∧
    (a.pretrained = none →
      ∀ p qs, Event.callTrain p qs ∈ (dispatchMain a w).1 →
        qs.get "warm_start" = some (Value.int a.fromEpoch)) := by
  constructor
  · intro pre hpre hex p qs h
    obtain ⟨-, wv, hwv, hqs⟩ := dispatch_callTrain h
    rw [warmStartResolved, hpre] at hwv
    simp [hex] at hwv
    subst hwv
    rw [hqs, trainCallParams_get_warm_start]
  · intro hpre p qs h
    obtain ⟨-, wv, hwv, hqs⟩ := dispatch_callTrain h
    rw [warmStartResolved, hpre] at hwv
    simp at hwv
    subst hwv
    rw [hqs, trainCallParams_get_warm_start]

/-- A world where every filesystem path exists. -/
def allPathsWorld : World := { baseWorld with pathExists := fun _ => true }

/-- `sad train --pretrained=/ckpt/0050.pt /exp P`. -/
def pretrainedArgs : Args :=
  { baseArgs with modeTrain := true, pretrained := some "/ckpt/0050.pt" }

/-- `sad validate --parallel=6 /exp/train P`. -/
def parallel6Args : Args :=
  { baseArgs with modeValidate := true, parallel := some 6 }

/-- The params dict `app.train` receives for
`sad train --pretrained=/ckpt/0050.pt /exp P` when that checkpoint
exists. -/
def trainPretrainedPs : Params :=
  [("device", Value.device Device.cpu), ("subset", Value.str "train"),
   ("warm_start", Value.path "/ckpt/0050.pt"),
   ("epochs", Value.int 100)]

set_option maxHeartbeats 1000000 in
theorem dispatch_pretrained_eq :
    dispatchMain pretrainedArgs allPathsWorld =
    ([Event.probe Device.cpu, Event.constructTrain "/exp",
      Event.callTrain "P" trainPretrainedPs], Outcome.ok) := by rfl

/-- Witness for C4: the existing checkpoint path overrides `--from`. -/
theorem C4_witness :
    pretrainedArgs.pretrained = some "/ckpt/0050.pt" ∧
    allPathsWorld.pathExists "/ckpt/0050.pt" = true ∧
    trainPretrainedPs.get "warm_start" =
      some (Value.path "/ckpt/0050.pt") :=
  ⟨rfl, rfl,
   (C4_warm_start_resolution pretrainedArgs allPathsWorld).1
     "/ckpt/0050.pt" rfl rfl "P" trainPretrainedPs
     (by rw [dispatch_pretrained_eq]; simp)⟩

/-- C9: in validate mode `n_jobs` is `int(arg['--parallel'])` when the
option is given and `multiprocessing.cpu_count()` otherwise. -/
theorem C9_n_jobs_resolution (a : Args) (w : World) :
    (∀ n, a.parallel = some n →
      ∀ p qs, Event.callValidate p qs ∈ (dispatchMain a w).1 →
        qs.get "n_jobs" = some (Value.int n)) ∧
    (a.parallel = none →
      ∀ p qs, Event.callValidate p qs ∈ (dispatchMain a w).1 →
        qs.get "n_jobs" = some (Value.int (w.cpuCount : Int))) := by
  have key : ∀ p qs, Event.callValidate p qs ∈ (dispatchMain a w).1 →
      qs.get "n_jobs" = some (Value.int (nJobsResolved a w)) := by
    intro p qs h
    obtain ⟨-, dv, -, hcase⟩ := dispatch_callValidate h
    rcases hcase with ⟨-, hqs⟩ | ⟨-, mv, -, hqs⟩
    · rw [hqs, validateBase_get_n_jobs]
    · rw [hqs, Params.get_insert]
      simp [validateBase_get_n_jobs]
  constructor
  · intro n hn p qs h
    rw [key p qs h, nJobsResolved, hn]
  · intro hn p qs h
    rw [key p qs h, nJobsResolved, hn]

/-- The params dict `app.validate` receives for
`sad validate --parallel=6 /exp/train P` against `baseWorld`. -/
def validateParallel6Ps : Params :=
  [("device", Value.device Device.cpu), ("subset", Value.str "development"),
   ("start", Value.int 0), ("end", Value.int 100), ("every", Value.int 1),
   ("chronological", Value.bool true), ("batch_size", Value.int 32),
   ("n_jobs", Value.int 6), ("purity", Value.float (9/10)),
   ("diarization", Value.bool false), ("precision", Value.float (4/5)),
   ("duration", Value.float 2), ("step", Value.float (1/4))]

set_option maxHeartbeats 1000000 in
theorem dispatch_parallel6_eq :
    dispatchMain parallel6Args baseWorld =
    ([Event.probe Device.cpu, Event.constructFromTrainDir "/exp/train",
      Event.callValidate "P" validateParallel6Ps], Outcome.ok) := by rfl

/-- Witness for C9 at `sad validate --parallel=6 /exp/train P`. -/
theorem C9_witness :
    parallel6Args.parallel = some 6 ∧
    validateParallel6Ps.get "n_jobs" = some (Value.int 6) :=
  ⟨rfl,
   (C9_n_jobs_resolution parallel6Args baseWorld).1 6 rfl "P"
     validateParallel6Ps (by rw [dispatch_parallel6_eq]; simp)⟩

/-- C8: under a single mode flag, the mode's positional directory
argument is resolved with a strict existence check before the
Application is constructed: when resolution fails, the process dies with
the resolution error and the trace holds nothing but the device probe —
no Application construction, no lifecycle call. -/
theorem C8_strict_path_resolution (a : Args) (w : World)
    (hm : modeFlagCount a = 1)
    (hres : w.resolveStrict a.modeDirArg = none) :
    dispatchMain a w =
      ([Event.probe a.deviceOf], Outcome.fileNotFound a.modeDirArg) := by
  unfold modeFlagCount at hm
  by_cases ht : a.modeTrain <;> by_cases hv : a.modeValidate <;>
    by_cases hp : a.modeApply <;>
      simp only [ht, hv, hp, if_true, if_false] at hm <;>
        first
        | exact absurd hm (by decide)
        | skip
  · -- train only
    simp [Args.modeDirArg, ht] at hres ⊢
    have h1 : trainBlock a w (initParams a) =
        ([], initParams a, some (Outcome.fileNotFound a.rootArg)) := by
      unfold trainBlock
      simp [ht, hres]
    unfold dispatchMain
    rw [h1]
  · -- validate only
    simp [Args.modeDirArg, ht, hv] at hres ⊢
    have h1 : trainBlock a w (initParams a) = ([], initParams a, none) :=
      trainBlock_off w _ (by simpa using ht)
    have h2 : validateBlock a w (initParams a) =
        ([], initParams a, some (Outcome.fileNotFound a.trainDirArg)) := by
      unfold validateBlock
      simp [hv, hres]
    unfold dispatchMain
    rw [h1]
    dsimp only
    rw [h2]
    simp [ht, hv]
  · -- apply only
    simp [Args.modeDirArg, ht, hv, hp] at hres ⊢
    have h1 : trainBlock a w (initParams a) = ([], initParams a, none) :=
      trainBlock_off w _ (by simpa using ht)
    have h2 : validateBlock a w (initParams a) = ([], initParams a, none) :=
      validateBlock_off w _ (by simpa using hv)
    have h3 : applyBlock a w (initParams a) =
        ([], initParams a, some (Outcome.fileNotFound a.validateDirArg)) := by
      unfold applyBlock
      simp [hp, hres]
    unfold dispatchMain
    rw [h1]
    dsimp only
    rw [h2]
    dsimp only
    rw [h3]
    simp [ht, hv, hp]

/-- A world in which no filesystem path can be resolved. -/
def noPathWorld : World :=
  { baseWorld with resolveStrict := fun _ => none }

/-- Witness for C8 at `sad validate /exp/train P` with a missing
`<train>` directory. -/
theorem C8_witness :
    modeFlagCount { baseArgs with modeValidate := true } = 1 ∧
    noPathWorld.resolveStrict
      ({ baseArgs with modeValidate := true } : Args).modeDirArg = none ∧
    dispatchMain { baseArgs with modeValidate := true } noPathWorld =
      ([Event.probe Device.cpu], Outcome.fileNotFound "/exp/train") :=
  ⟨rfl, rfl,
   C8_strict_path_resolution { baseArgs with modeValidate := true }
     noPathWorld rfl rfl⟩

/-- A `validate` call can only come from the validate branch, so its
mode flag was set. -/
theorem dispatch_callValidate_flag {a : Args} {w : World} {p : String}
    {qs : Params}
    (h : Event.callValidate p qs ∈ (dispatchMain a w).1) :
    a.modeValidate = true := by
  by_contra hc
  have hoff : a.modeValidate = false := by simpa using hc
  rcases mem_dispatchMain h with h | h | h | h
  · simp at h
  · exact absurd h trainBlock_no_callValidate
  · rw [validateBlock_off w _ hoff] at h
    simp at h
  · exact absurd h applyBlock_no_callValidate

/-- An `apply` call can only come from the apply branch, so its mode
flag was set. -/
theorem dispatch_callApply_flag {a : Args} {w : World} {p : String}
    {qs : Params}
    (h : Event.callApply p qs ∈ (dispatchMain a w).1) :
    a.modeApply = true := by
  by_contra hc
  have hoff : a.modeApply = false := by simpa using hc
  rcases mem_dispatchMain h with h | h | h | h
  · simp at h
  · exact absurd h trainBlock_no_callApply
  · exact absurd h validateBlock_no_callApply
  · rw [applyBlock_off w _ hoff] at h
    simp at h

theorem modeUnique_validate {a : Args} (hm : modeFlagCount a = 1)
    (h : a.modeValidate = true) :
    a.modeTrain = false ∧ a.modeApply = false := by
  unfold modeFlagCount at hm
  by_cases h1 : a.modeTrain <;> by_cases h3 : a.modeApply <;>
    simp only [h, h1, h3, if_true, if_false] at hm <;>
      first
      | exact absurd hm (by decide)
      | exact ⟨by simpa using h1, by simpa using h3⟩

theorem modeUnique_apply {a : Args} (hm : modeFlagCount a = 1)
    (h : a.modeApply = true) :
    a.modeTrain = false ∧ a.modeValidate = false := by
  unfold modeFlagCount at hm
  by_cases h1 : a.modeTrain <;> by_cases h2 : a.modeValidate <;>
    simp only [h, h1, h2, if_true, if_false] at hm <;>
      first
      | exact absurd hm (by decide)
      | exact ⟨by simpa using h1, by simpa using h2⟩

/-- C2: in validate and apply mode the chunk duration follows the
three-tier policy — explicit `--duration` converted to a float, else the
reconstructed Application's `duration` property, else a `ValueError`
naming the `--duration` option is raised and no lifecycle call is made. -/
theorem C2_duration_three_tier (a : Args) (w : World)
    (hm : modeFlagCount a = 1) (hmode : a.modeTrain = false) :
    (∀ q, a.durationOpt = some q →
      ∀ p qs,
        (Event.callValidate p qs ∈ (dispatchMain a w).1 ∨
         Event.callApply p qs ∈ (dispatchMain a w).1) →
        qs.get "duration" = some (Value.float q)) ∧
    (a.durationOpt = none →
      ∀ v, (modeAppProps a w).taskDuration = some v →
      ∀ p qs,
        (Event.callValidate p qs ∈ (dispatchMain a w).1 ∨
         Event.callApply p qs ∈ (dispatchMain a w).1) →
        qs.get "duration" = some v) ∧
    (a.durationOpt = none → (modeAppProps a w).taskDuration = none →
      ∀ r, w.resolveStrict a.modeDirArg = some r →
      ∀ t, a.application = some t →
        (dispatchMain a w).2 = Outcome.valueError durationMsg ∧
        ∀ e ∈ (dispatchMain a w).1, e.isLifecycleCall = false) ∧
    (∃ pre post, durationMsg = pre ++ "--duration" ++ post) := by
  refine ⟨?_, ?_, ?_, ?_⟩
  · -- tier 1: explicit --duration
    intro q hq p qs h
    rcases h with h | h
    · obtain ⟨-, dv, hdv, hcase⟩ := dispatch_callValidate h
      clear h
      simp [resolveDuration, hq] at hdv
      rcases hcase with ⟨-, hqs⟩ | ⟨-, mv, -, hqs⟩
      · rw [hqs, validateBase_get_duration, hdv]
      · rw [hqs, Params.get_insert]
        simp [validateBase_get_duration, hdv]
    · obtain ⟨-, dv, hdv, hqs⟩ := dispatch_callApply h
      clear h
      simp [resolveDuration, hq] at hdv
      rw [hqs, applyCallParams_get_duration, hdv]
  · -- tier 2: the Application's duration property
    intro hq v hv p qs h
    rcases h with h | h
    · have hflag := dispatch_callValidate_flag h
      rw [modeAppProps, if_pos hflag] at hv
      obtain ⟨-, dv, hdv, hcase⟩ := dispatch_callValidate h
      clear h
      simp [resolveDuration, hq, hv] at hdv
      rcases hcase with ⟨-, hqs⟩ | ⟨-, mv, -, hqs⟩
      · rw [hqs, validateBase_get_duration, hdv]
      · rw [hqs, Params.get_insert]
        simp [validateBase_get_duration, hdv]
    · have hflag := dispatch_callApply_flag h
      have hnv : a.modeValidate = false := (modeUnique_apply hm hflag).2
      rw [modeAppProps, hnv] at hv
      simp at hv
      obtain ⟨-, dv, hdv, hqs⟩ := dispatch_callApply h
      clear h
      simp [resolveDuration, hq, hv] at hdv
      rw [hqs, applyCallParams_get_duration, hdv]
  · -- tier 3: ValueError, no lifecycle call
    intro hq hv r hres t htask
    by_cases hvv : a.modeValidate = true
    · obtain ⟨-, hp⟩ := modeUnique_validate hm hvv
      rw [modeAppProps, if_pos hvv] at hv
      simp [Args.modeDirArg, hmode, hvv] at hres
      have h1 : trainBlock a w (initParams a) = ([], initParams a, none) :=
        trainBlock_off w _ hmode
      obtain ⟨ps', h2⟩ : ∃ ps', validateBlock a w (initParams a) =
          ([Event.constructFromTrainDir r], ps',
           some (Outcome.valueError durationMsg)) := by
        unfold validateBlock
        simp [hvv, hres, htask, resolveDuration, hq, hv]
        try exact ⟨_, rfl⟩
      have hmain : dispatchMain a w =
          ([Event.probe a.deviceOf, Event.constructFromTrainDir r],
           Outcome.valueError durationMsg) := by
        unfold dispatchMain
        rw [h1]
        dsimp only
        rw [h2]
        rfl
      rw [hmain]
      refine ⟨rfl, ?_⟩
      intro e he
      simp at he
      rcases he with rfl | rfl <;> rfl
    · have hpa : a.modeApply = true := by
        unfold modeFlagCount at hm
        by_cases h3 : a.modeApply
        · simpa using h3
        · simp only [hmode, hvv, h3, if_true, if_false] at hm
          exact absurd hm (by decide)
      have hnv : a.modeValidate = false := by simpa using hvv
      rw [modeAppProps, hnv] at hv
      simp at hv
      simp [Args.modeDirArg, hmode, hnv] at hres
      have h1 : trainBlock a w (initParams a) = ([], initParams a, none) :=
        trainBlock_off w _ hmode
      have h2 : validateBlock a w (initParams a) = ([], initParams a, none) :=
        validateBlock_off w _ hnv
      obtain ⟨ps', h3⟩ : ∃ ps', applyBlock a w (initParams a) =
          ([Event.constructFromValidateDir r], ps',
           some (Outcome.valueError durationMsg)) := by
        unfold applyBlock
        simp [hpa, hres, htask, resolveDuration, hq, hv]
        try exact ⟨_, rfl⟩
      have hmain : dispatchMain a w =
          ([Event.probe a.deviceOf, Event.constructFromValidateDir r],
           Outcome.valueError durationMsg) := by
        unfold dispatchMain
        rw [h1]
        dsimp only
        rw [h2]
        dsimp only
        rw [h3]
        rfl
      rw [hmain]
      refine ⟨rfl, ?_⟩
      intro e he
      simp at he
      rcases he with rfl | rfl <;> rfl
  · -- the message names the --duration option
    exact ⟨"Task has no \x27duration\x27 defined. Use \x27",
           "\x27 option to provide one.", rfl⟩

/-- Witness for C2 at `sad validate /exp/train P`: no `--duration`, so
the Application's 2-second duration property is used. -/
theorem C2_witness :
    modeFlagCount { baseArgs with modeValidate := true } = 1 ∧
    ({ baseArgs with modeValidate := true } : Args).modeTrain = false ∧
    validateDefaultPs.get "duration" = some (Value.float 2) :=
  ⟨rfl, rfl,
   (C2_duration_three_tier { baseArgs with modeValidate := true } baseWorld
      rfl rfl).2.1 rfl (Value.float 2) rfl "P" validateDefaultPs
     (Or.inl (by rw [dispatch_validateOnly_eq]; simp))⟩

/-- With exactly one task flag, the selected Application is the
speaker-embedding one precisely when `arg['emb']` is set. -/
theorem application_emb_iff {a : Args} (ht : taskFlagCount a = 1) :
    a.application = some TaskKind.speakerEmbedding ↔ a.emb = true := by
  constructor
  · intro h
    by_contra hc
    have he : a.emb = false := by simpa using hc
    unfold Args.application at h
    by_cases h1 : a.sad <;> by_cases h2 : a.scd <;> by_cases h3 : a.ovl <;>
      by_cases h5 : a.dom <;> simp [h1, h2, h3, he, h5] at h
  · intro he
    unfold taskFlagCount at ht
    unfold Args.application
    by_cases h1 : a.sad <;> by_cases h2 : a.scd <;> by_cases h3 : a.ovl <;>
      by_cases h5 : a.dom <;>
        simp only [h1, h2, h3, he, h5, if_true, if_false] at ht ⊢ <;>
          first
          | exact absurd ht (by decide)
          | rfl

/-- C5: a `metric` key reaches a lifecycle call exactly for the
embedding task in validate mode; it is the explicit `--metric` value,
else the Application's `metric` property, else a `ValueError` naming the
`--metric` option is raised and no lifecycle call is made. -/
theorem C5_metric_resolution (a : Args) (w : World)
    (hm : modeFlagCount a = 1) (ht : taskFlagCount a = 1) :
    (a.application = some TaskKind.speakerEmbedding ↔ a.emb = true) ∧
    (∀ p qs, Event.callTrain p qs ∈ (dispatchMain a w).1 →
       qs.get "metric" = none) ∧
    (∀ p qs, Event.callApply p qs ∈ (dispatchMain a w).1 →
       qs.get "metric" = none) ∧
    (∀ p qs, Event.callValidate p qs ∈ (dispatchMain a w).1 →
       (a.emb = false → qs.get "metric" = none) ∧
       (a.emb = true →
         (∀ m, a.metricOpt = some m →
            qs.get "metric" = some (Value.str m)) ∧
         (a.metricOpt = none →
           ∀ mv, w.appAtTrainDir.taskMetric = some mv →
             qs.get "metric" = some mv))) ∧
    (a.modeValidate = true → a.emb = true → a.metricOpt = none →
      w.appAtTrainDir.taskMetric = none →
      ∀ r, w.resolveStrict a.trainDirArg = some r →
      ∀ dv, resolveDuration a.durationOpt w.appAtTrainDir.taskDuration =
              Except.ok dv →
        (dispatchMain a w).2 = Outcome.valueError metricMsg ∧
        ∀ e ∈ (dispatchMain a w).1, e.isLifecycleCall = false) ∧
    (∃ pre post, metricMsg = pre ++ "--metric" ++ post) := by
  refine ⟨application_emb_iff ht, ?_, ?_, ?_, ?_, ?_⟩
  · -- train calls never carry a metric key
    intro p qs h
    obtain ⟨-, wv, -, hqs⟩ := dispatch_callTrain h
    clear h
    rw [hqs, trainCallParams_get_metric, initParams_get_metric]
  · -- apply calls never carry a metric key (single mode)
    intro p qs h
    have hfl := dispatch_callApply_flag h
    obtain ⟨h1f, h2f⟩ := modeUnique_apply hm hfl
    obtain ⟨-, dv, -, hqs⟩ := dispatch_callApply h
    clear h
    rw [hqs, applyCallParams_get_metric]
    simp [trainBlock_off w (initParams a) h1f,
      validateBlock_off w (initParams a) h2f, initParams_get_metric]
  · -- validate calls: metric key iff embedding task
    intro p qs h
    obtain ⟨-, dv, -, hcase⟩ := dispatch_callValidate h
    clear h
    constructor
    · intro he
      rcases hcase with ⟨-, hqs⟩ | ⟨habs, -⟩
      · rw [hqs, validateBase_get_metric, trainBlock_get_metric,
          initParams_get_metric]
      · rw [he] at habs
        exact absurd habs (by decide)
    · intro he
      rcases hcase with ⟨habs, -⟩ | ⟨-, mv, hmv, hqs⟩
      · rw [he] at habs
        exact absurd habs (by decide)
      · constructor
        · intro m hmo
          simp [resolveMetric, hmo] at hmv
          rw [hqs, Params.get_insert, if_pos rfl, hmv]
        · intro hmo v hprop
          simp [resolveMetric, hmo, hprop] at hmv
          rw [hqs, Params.get_insert, if_pos rfl, hmv]
  · -- the failing tier: ValueError naming --metric, no lifecycle call
    intro hvv hemb hmo hprop r hres dv hdv
    obtain ⟨h1f, h3f⟩ := modeUnique_validate hm hvv
    have h1 : trainBlock a w (initParams a) = ([], initParams a, none) :=
      trainBlock_off w _ h1f
    obtain ⟨ps', h2⟩ : ∃ ps', validateBlock a w (initParams a) =
        ([Event.constructFromTrainDir r], ps',
         some (Outcome.valueError metricMsg)) := by
      unfold validateBlock
      simp [hvv, hres, (application_emb_iff ht).2 hemb,
        hdv, hemb, resolveMetric, hmo, hprop]
      try exact ⟨_, rfl⟩
    have hmain : dispatchMain a w =
        ([Event.probe a.deviceOf, Event.constructFromTrainDir r],
         Outcome.valueError metricMsg) := by
      unfold dispatchMain
      rw [h1]
      dsimp only
      rw [h2]
      rfl
    rw [hmain]
    refine ⟨rfl, ?_⟩
    intro e he
    simp at he
    rcases he with rfl | rfl <;> rfl
  · exact ⟨"Approach has no \x27metric\x27 defined. Use \x27",
           "\x27 option to provide one.", rfl⟩

/-- `emb validate /exp/train P`. -/
def embValArgs : Args :=
  { baseArgs with sad := false, emb := true, modeValidate := true }

/-- The params dict `app.validate` receives for `emb validate` against
`baseWorld`: the defaults plus the `metric` fallback from the
Application. -/
def validateEmbPs : Params :=
  [("device", Value.device Device.cpu), ("subset", Value.str "development"),
   ("start", Value.int 0), ("end", Value.int 100), ("every", Value.int 1),
   ("chronological", Value.bool true), ("batch_size", Value.int 32),
   ("n_jobs", Value.int 4), ("purity", Value.float (9/10)),
   ("diarization", Value.bool false), ("precision", Value.float (4/5)),
   ("duration", Value.float 2), ("step", Value.float (1/4)),
   ("metric", Value.str "cosine")]

set_option maxHeartbeats 1000000 in
theorem dispatch_embValidate_eq :
    dispatchMain embValArgs baseWorld =
    ([Event.probe Device.cpu, Event.constructFromTrainDir "/exp/train",
      Event.callValidate "P" validateEmbPs], Outcome.ok) := by rfl

/-- Witness for C5 at `emb validate /exp/train P`: no `--metric`, so the
Application's cosine metric is used and the key is present. -/
theorem C5_witness :
    modeFlagCount embValArgs = 1 ∧ taskFlagCount embValArgs = 1 ∧
    embValArgs.emb = true ∧
    validateEmbPs.get "metric" = some (Value.str "cosine") :=
  ⟨rfl, rfl, rfl,
   (((C5_metric_resolution embValArgs baseWorld rfl rfl).2.2.2.1 "P"
       validateEmbPs (by rw [dispatch_embValidate_eq]; simp)).2 rfl).2 rfl
     (Value.str "cosine") rfl⟩

/-- C6: when several mode flags are true, the matching branches run
sequentially in the order train, validate, apply, reusing (and adding
keys to) one single params dict: the validate call still carries the
`warm_start` key set by the train branch, the apply call still carries
the `purity` key set by the validate branch, and each branch overwrites
`subset` with its own default before its call. -/
theorem C6_sequential_fallthrough (a : Args) (w : World)
    (r1 r2 r3 : String) (q : Rat) (t : TaskKind)
    (ht : a.modeTrain = true) (hv : a.modeValidate = true)
    (hp : a.modeApply = true)
    (htask : a.application = some t) (hemb : a.emb = false)
    (hpre : a.pretrained = none) (hdur : a.durationOpt = some q)
    (h1 : w.resolveStrict a.rootArg = some r1)
    (h2 : w.resolveStrict a.trainDirArg = some r2)
    (h3 : w.resolveStrict a.validateDirArg = some r3) :
    ∃ psT psV psA,
      (dispatchMain a w).1 =
        [Event.probe a.deviceOf, Event.constructTrain r1,
         Event.callTrain a.protocol psT, Event.constructFromTrainDir r2,
         Event.callValidate a.protocol psV,
         Event.constructFromValidateDir r3,
         Event.callApply a.protocol psA] ∧
      (dispatchMain a w).2 = Outcome.ok ∧
      psT.get "subset" = some (Value.str (subsetDefault a "train")) ∧
      psV.get "subset" = some (Value.str (subsetDefault a "development")) ∧
      psA.get "subset" = some (Value.str (subsetDefault a "test")) ∧
      psT.get "warm_start" = some (Value.int a.fromEpoch) ∧
      psV.get "warm_start" = some (Value.int a.fromEpoch) ∧
      psV.get "purity" = some (Value.float a.purity) ∧
      psA.get "purity" = some (Value.float a.purity) := by
  refine ⟨trainCallParams a (initParams a) (Value.int a.fromEpoch),
    validateCallParamsBase a w
      (trainCallParams a (initParams a) (Value.int a.fromEpoch))
      (Value.float q),
    applyCallParams a
      (validateCallParamsBase a w
        (trainCallParams a (initParams a) (Value.int a.fromEpoch))
        (Value.float q))
      (Value.float q), ?_⟩
  have hT : trainBlock a w (initParams a) =
      ([Event.constructTrain r1,
        Event.callTrain a.protocol
          (trainCallParams a (initParams a) (Value.int a.fromEpoch))],
       trainCallParams a (initParams a) (Value.int a.fromEpoch), none) := by
    unfold trainBlock
    simp [ht, h1, htask, hpre, trainCallParams, subsetDefault]
  have hV : validateBlock a w
      (trainCallParams a (initParams a) (Value.int a.fromEpoch)) =
      ([Event.constructFromTrainDir r2,
        Event.callValidate a.protocol
          (validateCallParamsBase a w
            (trainCallParams a (initParams a) (Value.int a.fromEpoch))
            (Value.float q))],
       validateCallParamsBase a w
         (trainCallParams a (initParams a) (Value.int a.fromEpoch))
         (Value.float q), none) := by
    unfold validateBlock
    simp [hv, h2, htask, resolveDuration, hdur, hemb,
      validateCallParamsBase, subsetDefault, nJobsResolved]
  have hA : applyBlock a w
      (validateCallParamsBase a w
        (trainCallParams a (initParams a) (Value.int a.fromEpoch))
        (Value.float q)) =
      ([Event.constructFromValidateDir r3,
        Event.callApply a.protocol
          (applyCallParams a
            (validateCallParamsBase a w
              (trainCallParams a (initParams a) (Value.int a.fromEpoch))
              (Value.float q))
            (Value.float q))],
       applyCallParams a
         (validateCallParamsBase a w
           (trainCallParams a (initParams a) (Value.int a.fromEpoch))
           (Value.float q))
         (Value.float q), none) := by
    unfold applyBlock
    simp [hp, h3, htask, resolveDuration, hdur, applyCallParams,
      subsetDefault]
  have hmain : dispatchMain a w =
      ([Event.probe a.deviceOf, Event.constructTrain r1,
        Event.callTrain a.protocol
          (trainCallParams a (initParams a) (Value.int a.fromEpoch)),
        Event.constructFromTrainDir r2,
        Event.callValidate a.protocol
          (validateCallParamsBase a w
            (trainCallParams a (initParams a) (Value.int a.fromEpoch))
            (Value.float q)),
        Event.constructFromValidateDir r3,
        Event.callApply a.protocol
          (applyCallParams a
            (validateCallParamsBase a w
              (trainCallParams a (initParams a) (Value.int a.fromEpoch))
              (Value.float q))
            (Value.float q))], Outcome.ok) := by
    unfold dispatchMain
    rw [hT]
    dsimp only
    rw [hV]
    dsimp only
    rw [hA]
    rfl
  refine ⟨by rw [hmain], by rw [hmain], trainCallParams_get_subset a _ _,
    validateBase_get_subset a w _ _, applyCallParams_get_subset a _ _,
    trainCallParams_get_warm_start a _ _, ?_, validateBase_get_purity a w _ _,
    ?_⟩
  · rw [validateBase_get_warm_start, trainCallParams_get_warm_start]
  · rw [applyCallParams_get_purity, validateBase_get_purity]

/-- `sad` with all three mode flags and `--duration=3`. -/
def allModesArgs : Args :=
  { baseArgs with modeTrain := true, modeValidate := true, modeApply := true, durationOpt := some 3 }

/-- Witness for C6: all three branches run in order against `baseWorld`. -/
theorem C6_witness :
    allModesArgs.modeTrain = true ∧ allModesArgs.modeValidate = true ∧
    allModesArgs.modeApply = true ∧
    ∃ psT psV psA,
      (dispatchMain allModesArgs baseWorld).1 =
        [Event.probe allModesArgs.deviceOf, Event.constructTrain "/exp",
         Event.callTrain allModesArgs.protocol psT,
         Event.constructFromTrainDir "/exp/train",
         Event.callValidate allModesArgs.protocol psV,
         Event.constructFromValidateDir "/exp/validate",
         Event.callApply allModesArgs.protocol psA] ∧
      (dispatchMain allModesArgs baseWorld).2 = Outcome.ok ∧
      psT.get "subset" = some (Value.str (subsetDefault allModesArgs "train")) ∧
      psV.get "subset" =
        some (Value.str (subsetDefault allModesArgs "development")) ∧
      psA.get "subset" = some (Value.str (subsetDefault allModesArgs "test")) ∧
      psT.get "warm_start" = some (Value.int allModesArgs.fromEpoch) ∧
      psV.get "warm_start" = some (Value.int allModesArgs.fromEpoch) ∧
      psV.get "purity" = some (Value.float allModesArgs.purity) ∧
      psA.get "purity" = some (Value.float allModesArgs.purity) :=
  ⟨rfl, rfl, rfl,
   C6_sequential_fallthrough allModesArgs baseWorld "/exp" "/exp/train"
     "/exp/validate" 3 TaskKind.speechActivityDetection rfl rfl rfl rfl rfl
     rfl rfl rfl rfl rfl⟩

/-- `sad train --pretrained=sad_ami /exp P` where no local file
`sad_ami` exists. -/
def hubFailArgs : Args :=
  { baseArgs with modeTrain := true, pretrained := some "sad_ami" }

/-- C1: in train mode, when `--pretrained` names no existing local
path and the remote hub fetch raises an exception, the process
terminates with a non-zero exit status after producing a diagnostic
that contains the original exception's text, and no lifecycle call is
made.  (The mechanism differs from the intended one: `sys` is never
imported, so `sys.exit(msg)` raises a `NameError` chained over the hub
exception; the interpreter's traceback — which reports the original
exception's text — is the diagnostic, and the exit status is 1.  The
built `msg` also wraps the exception text but is never delivered.) -/
theorem C1_fetch_failure_fatal_diagnostic (a : Args) (w : World)
    (pre e r : String) (t : TaskKind)
    (ht : a.modeTrain = true) (hpre : a.pretrained = some pre)
    (hex : w.pathExists pre = false)
    (hfetch : w.hubFetch pre = Except.error e)
    (hres : w.resolveStrict a.rootArg = some r)
    (htask : a.application = some t) :
    (dispatchMain a w).2 =
      Outcome.nameErrorSys (hubFailureMsg a.fromEpoch e) e ∧
    ((dispatchMain a w).2).exitStatus = 1 ∧
    e ∈ ((dispatchMain a w).2).stderrMessages ∧
    (∃ p q, hubFailureMsg a.fromEpoch e = p ++ e ++ q) ∧
    ∀ ev ∈ (dispatchMain a w).1, ev.isLifecycleCall = false := by
  obtain ⟨ps', hT⟩ : ∃ ps', trainBlock a w (initParams a) =
      ([Event.constructTrain r], ps',
       some (Outcome.nameErrorSys (hubFailureMsg a.fromEpoch e) e)) := by
    unfold trainBlock
    simp [ht, hres, htask, hpre, hex, hfetch]
    try exact ⟨_, rfl⟩
  have hmain : dispatchMain a w =
      ([Event.probe a.deviceOf, Event.constructTrain r],
       Outcome.nameErrorSys (hubFailureMsg a.fromEpoch e) e) := by
    unfold dispatchMain
    rw [hT]
  refine ⟨by rw [hmain], by rw [hmain]; rfl,
    by rw [hmain]; simp [Outcome.stderrMessages],
    ⟨"Could not load \"" ++ toString a.fromEpoch ++
       "\" model from torch.hub." ++
       "The following exception was raised:\n\n", "\n\n", rfl⟩, ?_⟩
  rw [hmain]
  intro ev he
  simp at he
  rcases he with rfl | rfl <;> rfl

/-- Witness for C1 at `sad train --pretrained=sad_ami /exp P` with the
hub raising `Exception("hub down")`. -/
theorem C1_witness :
    hubFailArgs.modeTrain = true ∧
    hubFailArgs.pretrained = some "sad_ami" ∧
    baseWorld.pathExists "sad_ami" = false ∧
    baseWorld.hubFetch "sad_ami" = Except.error "hub down" ∧
    baseWorld.resolveStrict "/exp" = some "/exp" ∧
    ((dispatchMain hubFailArgs baseWorld).2).exitStatus = 1 ∧
    "hub down" ∈ ((dispatchMain hubFailArgs baseWorld).2).stderrMessages :=
  ⟨rfl, rfl, rfl, rfl, rfl,
   (C1_fetch_failure_fatal_diagnostic hubFailArgs baseWorld "sad_ami"
      "hub down" "/exp" TaskKind.speechActivityDetection rfl rfl rfl rfl
      rfl rfl).2.1,
   (C1_fetch_failure_fatal_diagnostic hubFailArgs baseWorld "sad_ami"
      "hub down" "/exp" TaskKind.speechActivityDetection rfl rfl rfl rfl
      rfl rfl).2.2.1⟩
